import Mathlib

/-!
Verification of the endpoint generation engine of the kuadrant dns-operator
(`api/v1alpha1/dnsrecord_endpoints.go`).

Go strings are modelled as Lean `String`; Go maps (`map[string]string`) are
modelled as association lists `List (String × String)` whose order is the
(unspecified) iteration order of the Go map, with `Option` distinguishing a
nil map from a non-nil one where the code distinguishes them.  Fallible Go
functions returning `error` are modelled with `Option String` / `Except String`
carrying the error message.
-/

namespace Kuadrant

/-! ## Constants (`dnsrecord_endpoints.go` and `dnsrecord_types.go`) -/

def SimpleRoutingStrategy : String := "simple"

def LoadBalancedRoutingStrategy : String := "loadbalanced"

def IPAddressType : String := "IPAddress"

def HostnameAddressType : String := "Hostname"

def DefaultTTL : Nat := 60

def DefaultCnameTTL : Nat := 300

def LabelLBAttributeGeoCode : String := "kuadrant.io/lb-attribute-geo-code"

/-- Modelled from the spec: `DefaultGeo` lives in `dnsrecord_types.go`, which is
not part of the provided sources.  The spec calls it "a sentinel default-geo
constant"; its value `"default"` is pinned by the unit tests in
`dnsrecord_endpoints_test.go` (a gateway without the geo label produces
`default.klb.test.example.com` names and a `klb` CNAME with set identifier
`"default"`). -/
def DefaultGeo : String := "default"

/-- Modelled from the spec: `WildcardGeo` lives in `dnsrecord_types.go`.  The
spec (§6) fixes the provider-specific vocabulary: `"*"` denotes the
default/wildcard geo, as also pinned by the unit tests. -/
def WildcardGeo : String := "*"

/-- Modelled from the spec: provider-specific property name for geo codes,
fixed as `"geo-code"` by spec §6 and the unit tests. -/
def ProviderSpecificGeoCode : String := "geo-code"

/-- Modelled from the spec: provider-specific property name for weights,
fixed as `"weight"` by spec §6 and the unit tests. -/
def ProviderSpecificWeight : String := "weight"

def ARecordType : String := "A"

def CNAMERecordType : String := "CNAME"

/-! ## Go string primitives used by the generator -/

/-- `strings.ToLower` (the inputs of interest are ASCII, where Go's Unicode
lowercasing and `Char.toLower` agree). -/
def goToLower (s : String) : String := ⟨s.data.map Char.toLower⟩

/-- One left-to-right, non-overlapping pass of
`strings.Replace(s, "*.", "", -1)` over the characters. -/
def stripWildcardsData : List Char → List Char
  | '*' :: '.' :: rest => stripWildcardsData rest
  | c :: rest => c :: stripWildcardsData rest
  | [] => []

/-- `strings.Replace(hostname, "*.", "", -1)`: every occurrence of the
substring `"*."` is removed, scanning left to right. -/
def stripWildcards (s : String) : String := ⟨stripWildcardsData s.data⟩

/-- `isWildCardHost`: `strings.HasPrefix(host, "*")`. -/
def isWildCardHost (host : String) : Bool := ("*" : String).data.isPrefixOf host.data

/-- Modelled from the spec: `getShortCode` calls
`internal/common/hash.ToBase36HashLen(name, 6)`, which is not part of the
provided sources.  Per spec §4.1/§9 the contract is only "a fixed-length
(6 characters) deterministic base-36 hash"; the concrete digest below is one
such function. -/
def base36Digit (n : Nat) : Char :=
  if n < 10 then Char.ofNat (48 + n) else Char.ofNat (87 + n)

/-- Modelled from the spec: a 6-character deterministic base-36 short code
(see `base36Digit`). -/
def getShortCode (name : String) : String :=
  let h : Nat := name.data.foldl (fun acc c => (acc * 131 + c.toNat) % (36 ^ 6)) 7
  ⟨(List.range 6).map (fun i => base36Digit ((h / 36 ^ i) % 36))⟩

/-! ## Data model -/

/-- `k8s.io/apimachinery/pkg/types.NamespacedName` (`ns` is the `Namespace`
field; `namespace` is a Lean keyword). -/
structure NamespacedName where
  name : String
  ns : String
deriving DecidableEq

/-- `sigs.k8s.io/external-dns/endpoint.Endpoint`, restricted to the fields the
generator sets.  `providerSpecific` is the ordered list of
`ProviderSpecificProperty{Name, Value}` entries. -/
structure Endpoint where
  dnsName : String
  targets : List String
  recordType : String
  setIdentifier : String
  recordTTL : Nat
  providerSpecific : List (String × String)
deriving DecidableEq

/-- `metav1.LabelSelectorRequirement`: `operator` is one of
`In | NotIn | Exists | DoesNotExist` when valid. -/
structure LabelSelectorRequirement where
  key : String
  operator : String
  values : List String
deriving DecidableEq

/-- `metav1.LabelSelector`.  `none` models a nil `MatchLabels` map / nil
`MatchExpressions` slice, `some []` an empty non-nil one — `Routing.Validate`
distinguishes these. -/
structure LabelSelector where
  matchLabels : Option (List (String × String))
  matchExpressions : Option (List LabelSelectorRequirement)
deriving DecidableEq

structure CustomWeight where
  weight : Int
  selector : LabelSelector
deriving DecidableEq

/-- `Routing`.  `addresses = none` models a nil map; the list order of
`some l` is the Go map's iteration order.  `customWeights` is a plain list:
the Go code guards the validation loop with `CustomWeights != nil`, but
looping over a nil slice is a no-op, so nil and empty are indistinguishable. -/
structure Routing where
  addresses : Option (List (String × String))
  strategy : String
  defaultGeoCode : String
  defaultWeight : Int
  customWeights : List CustomWeight
  clusterID : String
deriving DecidableEq

/-! ## Label lookups and selector matching -/

/-- Lookup in a label map (`labels.Set`); Go map keys are unique. -/
def lookupLabel (ls : List (String × String)) (k : String) : Option String :=
  (ls.find? (fun p => p.1 == k)).map (·.2)

/-- `getGeoFromLabel`. -/
def getGeoFromLabel (objectLabels : List (String × String)) : String :=
  match lookupLabel objectLabels LabelLBAttributeGeoCode with
  | some geoCode => geoCode
  | none => DefaultGeo

/-- `labels.Requirement.Matches` from `k8s.io/apimachinery/pkg/labels` for the
four valid selector operators (any other operator makes
`LabelSelectorAsSelector` fail before matching is reached). -/
def reqMatches (ls : List (String × String)) (r : LabelSelectorRequirement) : Bool :=
  match r.operator with
  | "In" =>
    match lookupLabel ls r.key with
    | some v => r.values.contains v
    | none => false
  | "NotIn" =>
    match lookupLabel ls r.key with
    | some v => !(r.values.contains v)
    | none => true
  | "Exists" => (lookupLabel ls r.key).isSome
  | "DoesNotExist" => (lookupLabel ls r.key).isNone
  | _ => false

/-- Whether `metav1.LabelSelectorAsSelector` succeeds on the selector: every
expression must use a valid operator with the values arity that
`labels.NewRequirement` enforces — `In`/`NotIn` require a non-empty values
set, `Exists`/`DoesNotExist` an empty one (match-labels entries become
one-value `Equals` requirements and always satisfy the arity rule).
Syntactic validation of label keys/values (DNS-label syntax) is outside the
model. -/
def selectorValidOps (s : LabelSelector) : Bool :=
  (s.matchExpressions.getD []).all
    (fun r =>
      ((r.operator == "In" || r.operator == "NotIn") && !r.values.isEmpty) ||
      ((r.operator == "Exists" || r.operator == "DoesNotExist") && r.values.isEmpty))

/-- `labels.Selector.Matches` for a selector converted by
`LabelSelectorAsSelector`: the conjunction of all `matchLabels` equality
requirements and all `matchExpressions` requirements (an empty selector
matches everything). -/
def selectorMatches (ls : List (String × String)) (s : LabelSelector) : Bool :=
  (s.matchLabels.getD []).all (fun p => lookupLabel ls p.1 == some p.2) &&
  (s.matchExpressions.getD []).all (reqMatches ls)

/-- The loop body of `Routing.getWeight`: `weight` starts at `DefaultWeight`;
on a `LabelSelectorAsSelector` error the current (still default) weight is
returned; on the first match the custom weight is taken and the loop breaks. -/
def getWeightLoop (defaultWeight : Int) (ls : List (String × String)) :
    List CustomWeight → Int
  | [] => defaultWeight
  | cw :: rest =>
    if !selectorValidOps cw.selector then defaultWeight
    else if selectorMatches ls cw.selector then cw.weight
    else getWeightLoop defaultWeight ls rest

/-- `Routing.getWeight`. -/
def Routing.getWeight (r : Routing) (objectLabels : List (String × String)) : Int :=
  getWeightLoop r.defaultWeight objectLabels r.customWeights

/-! ## Validation -/

/-- The `for _, customWeight := range r.CustomWeights` loop of
`Routing.Validate`.  The Go emptiness test
`MatchLabels == nil && len(MatchLabels) == 0 && MatchExpressions == nil`
is equivalent to `MatchLabels == nil && MatchExpressions == nil`
(`len` of a nil map is always 0). -/
def validateCustomWeights : List CustomWeight → Option String
  | [] => none
  | cw :: rest =>
    if cw.weight = 0 then some "custom weight cannot be zero"
    else if cw.selector.matchLabels = none ∧ cw.selector.matchExpressions = none then
      some "custom weight must define non-empty selector"
    else validateCustomWeights rest

/-- `Routing.Validate`. -/
def Routing.Validate (r : Routing) : Option String :=
  if r.strategy = SimpleRoutingStrategy then none
  else if r.strategy = "" ∨ r.addresses = none then some "must provide addresses"
  else if r.clusterID = "" then some "cluster ID is required"
  else if r.defaultWeight = 0 then some "default weight is required"
  else if r.defaultGeoCode = "" then some "default geocode is required"
  else validateCustomWeights r.customWeights

/-! ## Endpoint construction -/

/-- `createEndpoint` (the Go zero value of `ProviderSpecific` is nil). -/
def createEndpoint (dnsName : String) (targets : List String) (recordType : String)
    (setIdentifier : String) (recordTTL : Nat) : Endpoint :=
  ⟨dnsName, targets, recordType, setIdentifier, recordTTL, []⟩

/-- `externaldns.Endpoint.SetProviderSpecificProperty`: update the value if the
property name is present, append otherwise. -/
def setProviderSpecificProperty (e : Endpoint) (key value : String) : Endpoint :=
  if e.providerSpecific.any (fun p => p.1 == key) then
    { e with providerSpecific :=
        e.providerSpecific.map (fun p => if p.1 == key then (key, value) else p) }
  else
    { e with providerSpecific := e.providerSpecific ++ [(key, value)] }

/-- Read back a provider-specific property. -/
def providerSpecificValue (e : Endpoint) (key : String) : Option String :=
  (e.providerSpecific.find? (fun p => p.1 == key)).map (·.2)

/-- `getSetID`. -/
def getSetID (e : Endpoint) : String := e.dnsName ++ e.setIdentifier

/-- Non-strict lexicographic comparison of character sequences: the `<=`
companion of Go's byte-wise `<` on strings (code-point order coincides with
UTF-8 byte order). -/
def lexLe : List Char → List Char → Bool
  | [], _ => true
  | _ :: _, [] => false
  | a :: as, b :: bs =>
    if a < b then true
    else if b < a then false
    else lexLe as bs

/-- The `sort.Slice(endpoints, getSetID i < getSetID j)` step.  Go's sort is
unstable but guaranteed to produce a permutation ordered by the comparison;
insertion sort over the matching non-strict comparison is one such
permutation. -/
def sortEndpoints (endpoints : List Endpoint) : List Endpoint :=
  endpoints.insertionSort (fun a b => lexLe (getSetID a).data (getSetID b).data = true)

/-- `targetsFromAddresses`: the `for key, value := range addresses` loop,
appending IP-typed keys to the first component and everything else to the
second, in iteration order. -/
def targetsFromAddresses : List (String × String) → List String × List String
  | [] => ([], [])
  | (key, value) :: rest =>
    let tfa := targetsFromAddresses rest
    if value = "IPAddress" then (key :: tfa.1, tfa.2) else (tfa.1, key :: tfa.2)

/-! ## Generators -/

/-- `getSimpleEndpoints`. -/
def getSimpleEndpoints (addresses : List (String × String)) (hostname : String) :
    List Endpoint :=
  let tfa := targetsFromAddresses addresses
  (if 0 < tfa.1.length then [createEndpoint hostname tfa.1 ARecordType "" DefaultTTL] else [])
    ++ (if 0 < tfa.2.length then [createEndpoint hostname tfa.2 CNAMERecordType "" DefaultTTL] else [])

/-- `cnameHost`: the hostname with wildcards stripped when it is a wildcard host. -/
def cnameHostOf (hostname : String) : String :=
  if isWildCardHost hostname then stripWildcards hostname else hostname

/-- `lbName := strings.ToLower(fmt.Sprintf("klb.%s", cnameHost))`. -/
def lbNameOf (hostname : String) : String := goToLower ("klb." ++ cnameHostOf hostname)

/-- `geoLbName := strings.ToLower(fmt.Sprintf("%s.%s", geoCode, lbName))`. -/
def geoLbNameOf (objectLabels : List (String × String)) (hostname : String) : String :=
  goToLower (getGeoFromLabel objectLabels ++ "." ++ lbNameOf hostname)

/-- `clusterLbName := strings.ToLower(fmt.Sprintf("%s-%s.%s",
getShortCode(clusterID), getShortCode(name-namespace), lbName))`. -/
def clusterLbNameOf (namespacedName : NamespacedName) (r : Routing) (hostname : String) :
    String :=
  goToLower (getShortCode r.clusterID ++ "-"
    ++ getShortCode (namespacedName.name ++ "-" ++ namespacedName.ns)
    ++ "." ++ lbNameOf hostname)

/-- `getLoadBalancedEndpoints`.  The final Go `if len(endpoints) > 0` guard
before the top CNAME is folded away: in the non-empty branch the list is
already non-empty. -/
def getLoadBalancedEndpoints (namespacedName : NamespacedName)
    (objectLabels : List (String × String)) (r : Routing) (hostname : String) :
    List Endpoint :=
  let lbName := lbNameOf hostname
  let geoCode := getGeoFromLabel objectLabels
  let geoLbName := geoLbNameOf objectLabels hostname
  let tfa := targetsFromAddresses (r.addresses.getD [])
  let hostValues :=
    tfa.2 ++ (if 0 < tfa.1.length then [clusterLbNameOf namespacedName r hostname] else [])
  let endpoints :=
    (if 0 < tfa.1.length then
      [createEndpoint (clusterLbNameOf namespacedName r hostname) tfa.1 ARecordType "" DefaultTTL]
    else [])
    ++ hostValues.map (fun hostValue =>
        setProviderSpecificProperty
          (createEndpoint geoLbName [hostValue] CNAMERecordType hostValue DefaultTTL)
          ProviderSpecificWeight (toString (r.getWeight objectLabels)))
  if endpoints.length = 0 then endpoints
  else
    endpoints
      ++ [if geoCode ≠ DefaultGeo then
            setProviderSpecificProperty
              (createEndpoint lbName [geoLbName] CNAMERecordType geoCode DefaultCnameTTL)
              ProviderSpecificGeoCode geoCode
          else createEndpoint lbName [geoLbName] CNAMERecordType geoCode DefaultCnameTTL]
      ++ (if geoCode = r.defaultGeoCode then
            [setProviderSpecificProperty
              (createEndpoint lbName [geoLbName] CNAMERecordType "default" DefaultCnameTTL)
              ProviderSpecificGeoCode WildcardGeo]
          else [])
      ++ [createEndpoint hostname [lbName] CNAMERecordType "" DefaultCnameTTL]

/-- `GenerateEndpoints`.  `objectLabels = none` models a nil labels map; the
Go `switch` on the strategy is an equality dispatch. -/
def GenerateEndpoints (namespacedName : NamespacedName)
    (objectLabels : Option (List (String × String))) (hostname : String) (r : Routing) :
    Except String (List Endpoint) :=
  if hostname = "" then .error "listener hostname is empty"
  else
    match r.Validate with
    | some e => .error e
    | none =>
      if r.strategy = SimpleRoutingStrategy then
        .ok (sortEndpoints (getSimpleEndpoints (r.addresses.getD []) hostname))
      else if r.strategy = LoadBalancedRoutingStrategy then
        match objectLabels with
        | none => .error "object labels required"
        | some ls =>
          .ok (sortEndpoints (getLoadBalancedEndpoints namespacedName ls r hostname))
      else .error ("unknown routing strategy : " ++ r.strategy)

end Kuadrant

namespace Kuadrant

/-! ## A spec-side definition for the weight-resolution refinement claim -/

/-- The weight resolution rule as the spec words it (§4.1 step 5): the first
custom weight whose selector matches the object labels wins, otherwise the
default weight.  Compared against `Routing.getWeight` below. -/
def specFirstMatchWeight (r : Routing) (ls : List (String × String)) : Int :=
  match r.customWeights.find? (fun cw => selectorMatches ls cw.selector) with
  | some cw => cw.weight
  | none => r.defaultWeight

deriving instance DecidableEq for Except

/-! ## Helper lemmas: string shapes of the generated names -/

theorem length_goToLower (s : String) : (goToLower s).length = s.length :=
  List.length_map _ _

theorem ne_of_length_ne {s t : String} (h : s.length ≠ t.length) : s ≠ t :=
  fun heq => h (congrArg String.length heq)

theorem length_dot : ("." : String).length = 1 := rfl

theorem length_klbdot : ("klb." : String).length = 4 := rfl

theorem length_dash : ("-" : String).length = 1 := rfl

theorem geoLbName_ne_lbName (ls : List (String × String)) (h : String) :
    geoLbNameOf ls h ≠ lbNameOf h := by
  apply ne_of_length_ne
  rw [geoLbNameOf, length_goToLower, String.length_append, String.length_append, length_dot]
  omega

theorem clusterLbName_ne_lbName (nn : NamespacedName) (r : Routing) (h : String) :
    clusterLbNameOf nn r h ≠ lbNameOf h := by
  apply ne_of_length_ne
  rw [clusterLbNameOf, length_goToLower, String.length_append, String.length_append,
    String.length_append, String.length_append, length_dot, length_dash]
  omega

theorem data_klb (x : String) : (goToLower ("klb." ++ x)).data
    = 'k' :: 'l' :: 'b' :: '.' :: x.data.map Char.toLower := by
  simp [goToLower, String.data_append]

theorem host_ne_lbName (h : String) : h ≠ lbNameOf h := by
  by_cases hw : isWildCardHost h
  · intro heq
    have hpre : ("*" : String).data.isPrefixOf h.data = true := hw
    rw [List.isPrefixOf_iff_prefix] at hpre
    obtain ⟨t, ht⟩ := hpre
    have hdata := congrArg String.data heq
    rw [lbNameOf, data_klb] at hdata
    rw [← ht] at hdata
    simp at hdata
  · apply ne_of_length_ne
    rw [lbNameOf, cnameHostOf, if_neg hw, length_goToLower, String.length_append, length_klbdot]
    omega

/-! ## Helper lemmas: address partitioning -/

theorem tfa_fst_eq_filter (l : List (String × String)) :
    (targetsFromAddresses l).1 = (l.filter (fun p => p.2 == "IPAddress")).map Prod.fst := by
  induction l with
  | nil => rfl
  | cons p rest ih =>
    obtain ⟨k, v⟩ := p
    by_cases hv : v = "IPAddress" <;>
      simp [targetsFromAddresses, hv, ih, List.filter_cons]

theorem tfa_snd_eq_filter (l : List (String × String)) :
    (targetsFromAddresses l).2 = (l.filter (fun p => !(p.2 == "IPAddress"))).map Prod.fst := by
  induction l with
  | nil => rfl
  | cons p rest ih =>
    obtain ⟨k, v⟩ := p
    by_cases hv : v = "IPAddress" <;>
      simp [targetsFromAddresses, hv, ih, List.filter_cons]

theorem tfa_eq_nil_nil (l : List (String × String))
    (h1 : (targetsFromAddresses l).1 = []) (h2 : (targetsFromAddresses l).2 = []) : l = [] := by
  cases l with
  | nil => rfl
  | cons p rest =>
    obtain ⟨k, v⟩ := p
    by_cases hv : v = "IPAddress" <;> simp [targetsFromAddresses, hv] at h1 h2

theorem mem_tfa_snd (l : List (String × String)) (k v : String)
    (hm : (k, v) ∈ l) (hv : v ≠ "IPAddress") : k ∈ (targetsFromAddresses l).2 := by
  rw [tfa_snd_eq_filter]
  exact List.mem_map.mpr ⟨(k, v), List.mem_filter.mpr ⟨hm, by simp [hv]⟩, rfl⟩

theorem getGeo_of_no_label (ls : List (String × String))
    (hl : lookupLabel ls LabelLBAttributeGeoCode = none) : getGeoFromLabel ls = DefaultGeo := by
  rw [getGeoFromLabel, hl]

/-! ## Helper lemmas: endpoint constructors -/

theorem dnsName_setPS (e : Endpoint) (k v : String) :
    (setProviderSpecificProperty e k v).dnsName = e.dnsName := by
  rw [setProviderSpecificProperty]
  split <;> rfl

theorem setPS_mk (d : String) (t : List String) (ty si : String) (ttl : Nat)
    (k v : String) :
    setProviderSpecificProperty ⟨d, t, ty, si, ttl, []⟩ k v =
      ⟨d, t, ty, si, ttl, [(k, v)]⟩ := by
  simp [setProviderSpecificProperty]

theorem setPS_createEndpoint (d : String) (t : List String) (ty si : String) (ttl : Nat)
    (k v : String) :
    setProviderSpecificProperty (createEndpoint d t ty si ttl) k v =
      ⟨d, t, ty, si, ttl, [(k, v)]⟩ := by
  simp [setProviderSpecificProperty, createEndpoint]

/-! ## Helper lemmas: sorting -/

theorem lexLe_total : ∀ a b : List Char, lexLe a b = true ∨ lexLe b a = true := by
  intro a
  induction a with
  | nil => intro b; left; rfl
  | cons x xs ih =>
    intro b
    cases b with
    | nil => right; rfl
    | cons y ys =>
      by_cases h1 : x < y
      · left
        simp [lexLe, h1]
      · by_cases h2 : y < x
        · right
          simp [lexLe, h2]
        · rcases ih ys with h | h <;> [left; right] <;> simp [lexLe, h1, h2, h]

theorem lexLe_trans : ∀ a b c : List Char,
    lexLe a b = true → lexLe b c = true → lexLe a c = true := by
  intro a
  induction a with
  | nil => intro b c _ _; rfl
  | cons x xs ih =>
    intro b c hab hbc
    cases b with
    | nil => simp [lexLe] at hab
    | cons y ys =>
      cases c with
      | nil => simp [lexLe] at hbc
      | cons z zs =>
        rw [lexLe] at hab hbc ⊢
        by_cases h1 : x < y
        · by_cases h2 : y < z
          · simp [lt_trans h1 h2]
          · by_cases h3 : z < y
            · simp [lexLe, h2, h3] at hbc
            · have : y = z := le_antisymm (not_lt.mp h3) (not_lt.mp h2)
              subst this
              simp [h1]
        · by_cases h4 : y < x
          · simp [h1, h4] at hab
          · have hxy : x = y := le_antisymm (not_lt.mp h4) (not_lt.mp h1)
            subst hxy
            rw [if_neg (lt_irrefl x), if_neg (lt_irrefl x)] at hab
            by_cases h2 : x < z
            · simp [h2]
            · by_cases h3 : z < x
              · simp [h2, h3] at hbc
              · rw [if_neg h2, if_neg h3] at hbc ⊢
                exact ih ys zs hab hbc

theorem lexLe_eq_false_of_lex {a b : List Char} (h : List.Lex (· < ·) b a) :
    lexLe a b = false := by
  induction h with
  | nil => rfl
  | @cons c l1 l2 hl ih =>
    rw [lexLe, if_neg (lt_irrefl c), if_neg (lt_irrefl c)]
    exact ih
  | @rel b1 l1 a1 l2 hr =>
    rw [lexLe, if_neg (asymm hr), if_pos hr]

theorem le_of_lexLe {s t : String} (h : lexLe s.data t.data = true) : s ≤ t := by
  rw [String.le_iff_toList_le, ← not_lt]
  intro hlt
  have hfalse := lexLe_eq_false_of_lex (show List.Lex (· < ·) t.data s.data from hlt)
  rw [h] at hfalse
  exact Bool.true_eq_false.mp hfalse

instance : IsTotal Endpoint (fun a b => lexLe (getSetID a).data (getSetID b).data = true) :=
  ⟨fun a b => lexLe_total (getSetID a).data (getSetID b).data⟩

instance : IsTrans Endpoint (fun a b => lexLe (getSetID a).data (getSetID b).data = true) :=
  ⟨fun _ _ _ hab hbc => lexLe_trans _ _ _ hab hbc⟩

theorem sorted_sortEndpoints (l : List Endpoint) :
    (sortEndpoints l).Sorted (fun a b => getSetID a ≤ getSetID b) :=
  (List.sorted_insertionSort _ l).imp (fun h => le_of_lexLe h)

theorem perm_sortEndpoints (l : List Endpoint) : (sortEndpoints l).Perm l :=
  List.perm_insertionSort _ l

/-! ## Helper lemmas: reductions of `GenerateEndpoints` -/

theorem strategy_ne_simple {r : Routing} (hs : r.strategy = LoadBalancedRoutingStrategy) :
    ¬(r.strategy = SimpleRoutingStrategy) := by
  rw [hs]
  decide

theorem generate_simple_ok (nn : NamespacedName) (ls : Option (List (String × String)))
    (h : String) (r : Routing) (hh : h ≠ "") (hs : r.strategy = SimpleRoutingStrategy) :
    GenerateEndpoints nn ls h r =
      .ok (sortEndpoints (getSimpleEndpoints (r.addresses.getD []) h)) := by
  have hv : r.Validate = none := by
    rw [Routing.Validate, if_pos hs]
  rw [GenerateEndpoints.eq_def, if_neg hh, hv]
  rw [if_pos hs]

theorem generate_lb_ok (nn : NamespacedName) (ls : List (String × String))
    (h : String) (r : Routing) (hh : h ≠ "") (hs : r.strategy = LoadBalancedRoutingStrategy)
    (hv : r.Validate = none) :
    GenerateEndpoints nn (some ls) h r =
      .ok (sortEndpoints (getLoadBalancedEndpoints nn ls r h)) := by
  rw [GenerateEndpoints.eq_def, if_neg hh, hv]
  rw [if_neg (strategy_ne_simple hs), if_pos hs]

theorem generate_error_of_validate (nn : NamespacedName) (ls : Option (List (String × String)))
    (h : String) (r : Routing) (e : String) (hh : h ≠ "") (hv : r.Validate = some e) :
    GenerateEndpoints nn ls h r = .error e := by
  rw [GenerateEndpoints.eq_def, if_neg hh, hv]

end Kuadrant

namespace Kuadrant

/-! ## Helper lemmas: the load-balanced generation spine -/

/-- The body of `getLoadBalancedEndpoints` when at least one address exists
(the `len(endpoints) == 0` early return does not fire). -/
theorem getLB_spine (nn : NamespacedName) (ls : List (String × String)) (r : Routing)
    (h : String) (hadd : r.addresses.getD [] ≠ []) :
    getLoadBalancedEndpoints nn ls r h =
      (if 0 < (targetsFromAddresses (r.addresses.getD [])).1.length then
        [createEndpoint (clusterLbNameOf nn r h)
          (targetsFromAddresses (r.addresses.getD [])).1 ARecordType "" DefaultTTL]
      else [])
      ++ (((targetsFromAddresses (r.addresses.getD [])).2
            ++ (if 0 < (targetsFromAddresses (r.addresses.getD [])).1.length then
                  [clusterLbNameOf nn r h] else [])).map (fun hostValue =>
            setProviderSpecificProperty
              (createEndpoint (geoLbNameOf ls h) [hostValue] CNAMERecordType hostValue DefaultTTL)
              ProviderSpecificWeight (toString (r.getWeight ls))))
      ++ [if getGeoFromLabel ls ≠ DefaultGeo then
            setProviderSpecificProperty
              (createEndpoint (lbNameOf h) [geoLbNameOf ls h] CNAMERecordType (getGeoFromLabel ls)
                DefaultCnameTTL)
              ProviderSpecificGeoCode (getGeoFromLabel ls)
          else
            createEndpoint (lbNameOf h) [geoLbNameOf ls h] CNAMERecordType (getGeoFromLabel ls)
              DefaultCnameTTL]
      ++ (if getGeoFromLabel ls = r.defaultGeoCode then
            [setProviderSpecificProperty
              (createEndpoint (lbNameOf h) [geoLbNameOf ls h] CNAMERecordType "default"
                DefaultCnameTTL)
              ProviderSpecificGeoCode WildcardGeo]
          else [])
      ++ [createEndpoint h [lbNameOf h] CNAMERecordType "" DefaultCnameTTL] := by
  rw [getLoadBalancedEndpoints]
  by_cases hip : 0 < (targetsFromAddresses (r.addresses.getD [])).1.length
  · simp only [if_pos hip]
    split
    · next hlen => simp at hlen
    · rfl
  · have h2 : (targetsFromAddresses (r.addresses.getD [])).2 ≠ [] := by
      intro h2
      exact hadd (tfa_eq_nil_nil _ (by simpa using hip) h2)
    simp only [if_neg hip]
    split
    · next hlen => simp [h2] at hlen
    · rfl

/-- The records the load-balanced generation emits at the anchor `lbName`:
the main geo-tier pointer (with the `geo-code` property exactly when the geo
code is not the sentinel), plus the `"default"` duplicate exactly when the geo
code equals the routing's default geo code. -/
theorem filter_lbName_getLB (nn : NamespacedName) (ls : List (String × String)) (r : Routing)
    (h : String) (hadd : r.addresses.getD [] ≠ []) :
    (getLoadBalancedEndpoints nn ls r h).filter (fun e => e.dnsName == lbNameOf h) =
      (if getGeoFromLabel ls ≠ DefaultGeo then
        (⟨lbNameOf h, [geoLbNameOf ls h], CNAMERecordType, getGeoFromLabel ls, DefaultCnameTTL,
          [(ProviderSpecificGeoCode, getGeoFromLabel ls)]⟩ : Endpoint)
      else
        ⟨lbNameOf h, [geoLbNameOf ls h], CNAMERecordType, getGeoFromLabel ls, DefaultCnameTTL, []⟩)
      :: (if getGeoFromLabel ls = r.defaultGeoCode then
            [⟨lbNameOf h, [geoLbNameOf ls h], CNAMERecordType, "default", DefaultCnameTTL,
              [(ProviderSpecificGeoCode, WildcardGeo)]⟩]
          else []) := by
  have hA : List.filter (fun e => e.dnsName == lbNameOf h)
      (if 0 < (targetsFromAddresses (r.addresses.getD [])).1.length then
        [createEndpoint (clusterLbNameOf nn r h)
          (targetsFromAddresses (r.addresses.getD [])).1 ARecordType "" DefaultTTL]
      else []) = [] := by
    split <;> simp [createEndpoint, clusterLbName_ne_lbName nn r h]
  have hB : ∀ l : List String, List.filter (fun e => e.dnsName == lbNameOf h)
      (l.map (fun hostValue =>
        setProviderSpecificProperty
          (createEndpoint (geoLbNameOf ls h) [hostValue] CNAMERecordType hostValue DefaultTTL)
          ProviderSpecificWeight (toString (r.getWeight ls)))) = [] := by
    intro l
    apply List.filter_eq_nil_iff.mpr
    intro a ha
    simp only [List.mem_map] at ha
    obtain ⟨x, -, rfl⟩ := ha
    simp [dnsName_setPS, createEndpoint, geoLbName_ne_lbName ls h]
  have hC : List.filter (fun e => e.dnsName == lbNameOf h)
      [if getGeoFromLabel ls ≠ DefaultGeo then
        setProviderSpecificProperty
          (createEndpoint (lbNameOf h) [geoLbNameOf ls h] CNAMERecordType (getGeoFromLabel ls)
            DefaultCnameTTL)
          ProviderSpecificGeoCode (getGeoFromLabel ls)
      else
        createEndpoint (lbNameOf h) [geoLbNameOf ls h] CNAMERecordType (getGeoFromLabel ls)
          DefaultCnameTTL] =
      [if getGeoFromLabel ls ≠ DefaultGeo then
        setProviderSpecificProperty
          (createEndpoint (lbNameOf h) [geoLbNameOf ls h] CNAMERecordType (getGeoFromLabel ls)
            DefaultCnameTTL)
          ProviderSpecificGeoCode (getGeoFromLabel ls)
      else
        createEndpoint (lbNameOf h) [geoLbNameOf ls h] CNAMERecordType (getGeoFromLabel ls)
          DefaultCnameTTL] := by
    split <;> simp [setPS_createEndpoint, createEndpoint, dnsName_setPS]
  have hD : List.filter (fun e => e.dnsName == lbNameOf h)
      (if getGeoFromLabel ls = r.defaultGeoCode then
        [setProviderSpecificProperty
          (createEndpoint (lbNameOf h) [geoLbNameOf ls h] CNAMERecordType "default" DefaultCnameTTL)
          ProviderSpecificGeoCode WildcardGeo]
      else []) =
      (if getGeoFromLabel ls = r.defaultGeoCode then
        [setProviderSpecificProperty
          (createEndpoint (lbNameOf h) [geoLbNameOf ls h] CNAMERecordType "default" DefaultCnameTTL)
          ProviderSpecificGeoCode WildcardGeo]
      else []) := by
    split <;> simp [setPS_createEndpoint]
  have hE : List.filter (fun e => e.dnsName == lbNameOf h)
      [createEndpoint h [lbNameOf h] CNAMERecordType "" DefaultCnameTTL] = [] := by
    simp [createEndpoint, host_ne_lbName h]
  rw [getLB_spine nn ls r h hadd]
  simp only [List.filter_append, hA, hB, hC, hD, hE, List.nil_append, List.append_nil,
    List.singleton_append]
  split
  · next hgeo =>
    rw [setPS_createEndpoint]
    split
    · next hdef => simp [setPS_mk, createEndpoint]
    · next hdef => rfl
  · next hgeo =>
    split
    · next hdef => simp [setPS_mk, createEndpoint]
    · next hdef => simp [createEndpoint]

/-- The last endpoint emitted by a non-empty load-balanced generation is the
top CNAME for the original hostname. -/
theorem getLB_getLast (nn : NamespacedName) (ls : List (String × String)) (r : Routing)
    (h : String) (hadd : r.addresses.getD [] ≠ []) :
    (getLoadBalancedEndpoints nn ls r h).getLast? =
      some (createEndpoint h [lbNameOf h] CNAMERecordType "" DefaultCnameTTL) := by
  rw [getLB_spine nn ls r h hadd]
  exact List.getLast?_concat _

/-- `getSimpleEndpoints` written through the IP/hostname partition of the
addresses. -/
theorem getSimple_as_filters (l : List (String × String)) (h : String) :
    getSimpleEndpoints l h =
      (if (l.filter (fun p => p.2 == "IPAddress")).map Prod.fst = [] then []
       else [⟨h, (l.filter (fun p => p.2 == "IPAddress")).map Prod.fst,
              ARecordType, "", DefaultTTL, []⟩])
      ++ (if (l.filter (fun p => !(p.2 == "IPAddress"))).map Prod.fst = [] then []
       else [⟨h, (l.filter (fun p => !(p.2 == "IPAddress"))).map Prod.fst,
              CNAMERecordType, "", DefaultTTL, []⟩]) := by
  by_cases k1 : (targetsFromAddresses l).1 = [] <;>
    by_cases k2 : (targetsFromAddresses l).2 = [] <;>
      simp [getSimpleEndpoints, createEndpoint, k1, k2, List.length_pos,
        ← tfa_fst_eq_filter, ← tfa_snd_eq_filter]

end Kuadrant

namespace Kuadrant

/-! ## Helper lemmas: weight resolution -/

theorem getWeightLoop_eq_spec (d : Int) (ls : List (String × String))
    (l : List CustomWeight) (hvalid : ∀ cw ∈ l, selectorValidOps cw.selector = true) :
    getWeightLoop d ls l =
      match l.find? (fun cw => selectorMatches ls cw.selector) with
      | some cw => cw.weight
      | none => d := by
  induction l with
  | nil => rfl
  | cons cw rest ih =>
    have hcw : selectorValidOps cw.selector = true := hvalid cw (by simp)
    rw [getWeightLoop, hcw]
    by_cases hm : selectorMatches ls cw.selector = true
    · simp [hm, List.find?]
    · rw [List.find?]
      have hm' : selectorMatches ls cw.selector = false := by
        cases hb : selectorMatches ls cw.selector
        · rfl
        · exact absurd hb hm
      rw [hm']
      simp only [Bool.not_true, Bool.false_eq_true, if_false, hm', if_false]
      exact ih (fun c hc => hvalid c (by simp [hc]))

/-- Every generated endpoint that is a TTL-60 CNAME (i.e. a geo-tier record)
carries the resolved weight as its `weight` property. -/
theorem weight_on_geo_cnames (nn : NamespacedName) (ls : List (String × String))
    (r : Routing) (h : String) (e : Endpoint)
    (he : e ∈ getLoadBalancedEndpoints nn ls r h)
    (hct : e.recordType = CNAMERecordType) (httl : e.recordTTL = DefaultTTL) :
    providerSpecificValue e ProviderSpecificWeight = some (toString (r.getWeight ls)) := by
  have hMapP : ∀ l : List String, e ∈ l.map (fun hostValue =>
      setProviderSpecificProperty
        (createEndpoint (geoLbNameOf ls h) [hostValue] CNAMERecordType hostValue DefaultTTL)
        ProviderSpecificWeight (toString (r.getWeight ls))) →
      providerSpecificValue e ProviderSpecificWeight = some (toString (r.getWeight ls)) := by
    intro l hm
    obtain ⟨x, -, rfl⟩ := List.mem_map.mp hm
    rw [setPS_createEndpoint]
    simp [providerSpecificValue]
  have hArec : ∀ d : String, ∀ t : List String,
      e = createEndpoint d t ARecordType "" DefaultTTL → False := by
    intro d t h'
    subst h'
    simp [createEndpoint, ARecordType, CNAMERecordType] at hct
  have hE7 : ∀ si ps, e = (⟨lbNameOf h, [geoLbNameOf ls h], CNAMERecordType, si,
      DefaultCnameTTL, ps⟩ : Endpoint) → False := by
    intro si ps h'
    subst h'
    simp [DefaultCnameTTL, DefaultTTL] at httl
  have hTop : e = createEndpoint h [lbNameOf h] CNAMERecordType "" DefaultCnameTTL → False := by
    intro h'
    subst h'
    simp [createEndpoint, DefaultCnameTTL, DefaultTTL] at httl
  rw [getLoadBalancedEndpoints] at he
  by_cases hip : 0 < (targetsFromAddresses (r.addresses.getD [])).1.length
  · simp only [if_pos hip] at he
    split at he
    · rcases List.mem_append.mp he with hA | hMap
      · exact absurd (List.mem_singleton.mp hA) (fun h' => (hArec _ _ h').elim)
      · exact hMapP _ hMap
    · rcases List.mem_append.mp he with he1 | htop
      · rcases List.mem_append.mp he1 with he2 | hdup
        · rcases List.mem_append.mp he2 with he3 | he7
          · rcases List.mem_append.mp he3 with hA | hMap
            · exact absurd (List.mem_singleton.mp hA) (fun h' => (hArec _ _ h').elim)
            · exact hMapP _ hMap
          · exfalso
            rw [List.mem_singleton] at he7
            revert he7
            split
            · rw [setPS_createEndpoint]
              exact fun h' => hE7 _ _ h'
            · rw [createEndpoint.eq_def]
              exact fun h' => hE7 _ _ h'
        · exfalso
          revert hdup
          split
          · rw [List.mem_singleton, setPS_createEndpoint]
            exact fun h' => hE7 _ _ h'
          · simp
      · exact absurd (List.mem_singleton.mp htop) (fun h' => (hTop h').elim)
  · simp only [if_neg hip] at he
    split at he
    · rcases List.mem_append.mp he with hA | hMap
      · simp at hA
      · exact hMapP _ hMap
    · rcases List.mem_append.mp he with he1 | htop
      · rcases List.mem_append.mp he1 with he2 | hdup
        · rcases List.mem_append.mp he2 with he3 | he7
          · rcases List.mem_append.mp he3 with hA | hMap
            · simp at hA
            · exact hMapP _ hMap
          · exfalso
            rw [List.mem_singleton] at he7
            revert he7
            split
            · rw [setPS_createEndpoint]
              exact fun h' => hE7 _ _ h'
            · rw [createEndpoint.eq_def]
              exact fun h' => hE7 _ _ h'
        · exfalso
          revert hdup
          split
          · rw [List.mem_singleton, setPS_createEndpoint]
            exact fun h' => hE7 _ _ h'
          · simp
      · exact absurd (List.mem_singleton.mp htop) (fun h' => (hTop h').elim)

/-! ## Helper lemmas: validation -/

theorem validateCW_none_iff (l : List CustomWeight) :
    validateCustomWeights l = none ↔
      ∀ cw ∈ l, cw.weight ≠ 0 ∧
        ¬(cw.selector.matchLabels = none ∧ cw.selector.matchExpressions = none) := by
  induction l with
  | nil => simp [validateCustomWeights]
  | cons cw rest ih =>
    rw [validateCustomWeights]
    by_cases hw : cw.weight = 0
    · simp [hw]
    · rw [if_neg hw]
      by_cases hsel : cw.selector.matchLabels = none ∧ cw.selector.matchExpressions = none
      · simp [hsel, hw]
      · rw [if_neg hsel, ih]
        constructor
        · intro hall c hc
          rcases List.mem_cons.mp hc with rfl | hc'
          · exact ⟨hw, hsel⟩
          · exact hall c hc'
        · intro hall c hc
          exact hall c (List.mem_cons_of_mem _ hc)

theorem validateCW_cases (l : List CustomWeight) :
    validateCustomWeights l = none ∨
      validateCustomWeights l = some "custom weight cannot be zero" ∨
      validateCustomWeights l = some "custom weight must define non-empty selector" := by
  induction l with
  | nil => simp [validateCustomWeights]
  | cons cw rest ih =>
    rw [validateCustomWeights]
    by_cases hw : cw.weight = 0
    · simp [hw]
    · rw [if_neg hw]
      by_cases hsel : cw.selector.matchLabels = none ∧ cw.selector.matchExpressions = none
      · simp [hsel]
      · rw [if_neg hsel]
        exact ih

theorem validate_lb_checks (r : Routing) (hs : r.strategy ≠ SimpleRoutingStrategy) :
    ((r.strategy = "" ∨ r.addresses = none) → r.Validate = some "must provide addresses")
    ∧ (r.strategy ≠ "" → r.addresses ≠ none → r.clusterID = "" →
        r.Validate = some "cluster ID is required")
    ∧ (r.strategy ≠ "" → r.addresses ≠ none → r.clusterID ≠ "" → r.defaultWeight = 0 →
        r.Validate = some "default weight is required")
    ∧ (r.strategy ≠ "" → r.addresses ≠ none → r.clusterID ≠ "" → r.defaultWeight ≠ 0 →
        r.defaultGeoCode = "" → r.Validate = some "default geocode is required")
    ∧ (r.strategy ≠ "" → r.addresses ≠ none → r.clusterID ≠ "" → r.defaultWeight ≠ 0 →
        r.defaultGeoCode ≠ "" → r.Validate = validateCustomWeights r.customWeights) := by
  rw [Routing.Validate, if_neg hs]
  refine ⟨fun hor => ?_, fun h1 h2 h3 => ?_, fun h1 h2 h3 h4 => ?_,
    fun h1 h2 h3 h4 h5 => ?_, fun h1 h2 h3 h4 h5 => ?_⟩
  · rw [if_pos hor]
  · rw [if_neg (by tauto), if_pos h3]
  · rw [if_neg (by tauto), if_neg h3, if_pos h4]
  · rw [if_neg (by tauto), if_neg h3, if_neg h4, if_pos h5]
  · rw [if_neg (by tauto), if_neg h3, if_neg h4, if_neg h5]

end Kuadrant

namespace Kuadrant

/-! ## Concrete fixtures used by witnesses and counterexamples -/

def exNN : NamespacedName := ⟨"TestName", "TestNamespace"⟩

def exAddrsA : List (String × String) := [("127.0.0.1", "IPAddress"), ("127.0.0.2", "IPAddress")]

def exAddrsB : List (String × String) := [("127.0.0.2", "IPAddress"), ("127.0.0.1", "IPAddress")]

/-- A simple-strategy routing over the given address list (iteration order). -/
def exSimpleRouting (a : List (String × String)) : Routing :=
  ⟨some a, SimpleRoutingStrategy, "", 0, [], ""⟩

def rLbValid : Routing :=
  ⟨some [("1.1.1.1", "IPAddress")], LoadBalancedRoutingStrategy, "IE", 120, [], "cid"⟩

def rNilAddresses : Routing := ⟨none, LoadBalancedRoutingStrategy, "IE", 120, [], "cid"⟩

def rC10 : Routing := ⟨none, SimpleRoutingStrategy, "", 0, [⟨0, ⟨none, none⟩⟩], ""⟩

def epsSortedWitness : List Endpoint :=
  sortEndpoints (getSimpleEndpoints [("1.2.3.4", "IPAddress")] "test.example.com")

/-! ## Claims -/

/-- Claim C1 (code-bug evidence): the output of `GenerateEndpoints` depends on
the iteration order of the Go `addresses` map.  The two routings below hold the
same map (the address lists are permutations of one another with distinct
keys), yet the generated outputs differ: the A record's target list follows the
iteration order and is never sorted.  Go randomizes map iteration order per
range, so two calls on the same inputs can produce the two distinct outputs
exhibited here, contradicting byte-identical determinism. -/
theorem generate_depends_on_map_iteration_order :
    exAddrsA.Perm exAddrsB
    ∧ (exAddrsA.map Prod.fst).Nodup
    ∧ GenerateEndpoints exNN none "test.example.com" (exSimpleRouting exAddrsA)
        ≠ GenerateEndpoints exNN none "test.example.com" (exSimpleRouting exAddrsB) :=
  ⟨by decide, by decide, by decide⟩

/-- Claim C5 (amended): for a load-balanced routing that passes validation,
`GenerateEndpoints` with nil object labels and a non-empty hostname fails with
the missing-object-labels error.  (As stated the claim is false: validation
runs first, so an invalid routing yields its validation error instead.) -/
theorem lb_nil_labels_error (nn : NamespacedName) (h : String) (r : Routing)
    (hh : h ≠ "") (hs : r.strategy = LoadBalancedRoutingStrategy) (hv : r.Validate = none) :
    GenerateEndpoints nn none h r = .error "object labels required" := by
  rw [GenerateEndpoints.eq_def, if_neg hh, hv]
  rw [if_neg (strategy_ne_simple hs), if_pos hs]

/-- Claim C5 witness: the amended claim at a concrete valid routing. -/
theorem lb_nil_labels_error_witness :
    GenerateEndpoints exNN none "test.example.com" rLbValid = .error "object labels required" :=
  lb_nil_labels_error exNN "test.example.com" rLbValid (by decide) rfl (by decide)

/-- Claim C5 counterexample: a load-balanced routing with nil addresses and nil
object labels fails with the validation error, not "object labels required". -/
theorem lb_nil_labels_claim_false :
    rNilAddresses.strategy = LoadBalancedRoutingStrategy
    ∧ GenerateEndpoints exNN none "test.example.com" rNilAddresses =
        .error "must provide addresses"
    ∧ ("must provide addresses" : String) ≠ "object labels required" :=
  ⟨rfl, by decide, by decide⟩

/-- Claim C7: every successful `GenerateEndpoints` call (either strategy)
returns a list sorted ascending by `dnsName ++ setIdentifier`. -/
theorem generate_output_sorted (nn : NamespacedName) (ls : Option (List (String × String)))
    (h : String) (r : Routing) (eps : List Endpoint)
    (hok : GenerateEndpoints nn ls h r = .ok eps) :
    eps.Sorted (fun a b => getSetID a ≤ getSetID b) := by
  rw [GenerateEndpoints.eq_def] at hok
  split at hok
  · simp at hok
  · split at hok
    · simp at hok
    · split at hok
      · rw [Except.ok.injEq] at hok
        rw [← hok]
        exact sorted_sortEndpoints _
      · split at hok
        · split at hok
          · simp at hok
          · rw [Except.ok.injEq] at hok
            rw [← hok]
            exact sorted_sortEndpoints _
        · simp at hok

/-- Claim C7 witness: the sortedness theorem at a concrete call. -/
theorem generate_output_sorted_witness :
    epsSortedWitness.Sorted (fun a b => getSetID a ≤ getSetID b) :=
  generate_output_sorted exNN none "test.example.com"
    (exSimpleRouting [("1.2.3.4", "IPAddress")]) epsSortedWitness (by decide)

/-- Claim C10: a simple-strategy routing always passes validation (whatever the
other fields hold), `GenerateEndpoints` with a non-empty hostname never returns
an error for it, a nil or empty addresses map yields the empty endpoint list
with no error, and an address whose kind is not `"IPAddress"` is classified as
a hostname-typed target. -/
theorem simple_validate_always_ok (r : Routing) (hs : r.strategy = SimpleRoutingStrategy) :
    r.Validate = none
    ∧ (∀ nn : NamespacedName, ∀ ls : Option (List (String × String)), ∀ h : String, h ≠ "" →
        ∃ eps, GenerateEndpoints nn ls h r = .ok eps)
    ∧ (∀ nn : NamespacedName, ∀ ls : Option (List (String × String)), ∀ h : String, h ≠ "" →
        (r.addresses = none ∨ r.addresses = some []) → GenerateEndpoints nn ls h r = .ok [])
    ∧ (∀ l : List (String × String), ∀ k v : String, (k, v) ∈ l → v ≠ "IPAddress" →
        k ∈ (targetsFromAddresses l).2) := by
  refine ⟨by rw [Routing.Validate, if_pos hs],
    fun nn ls h hh => ⟨_, generate_simple_ok nn ls h r hh hs⟩,
    fun nn ls h hh haddr => ?_,
    fun l k v hm hv => mem_tfa_snd l k v hm hv⟩
  rw [generate_simple_ok nn ls h r hh hs]
  rcases haddr with h0 | h0 <;> rw [h0] <;> rfl

/-- Claim C10 witness: a simple routing with nil addresses, zero weights and a
selector-less custom weight still validates and generates an empty list. -/
theorem simple_validate_always_ok_witness :
    rC10.Validate = none
    ∧ GenerateEndpoints exNN none "test.example.com" rC10 = .ok [] :=
  ⟨(simple_validate_always_ok rC10 rfl).1,
   (simple_validate_always_ok rC10 rfl).2.2.1 exNN none "test.example.com" (by decide)
     (Or.inl rfl)⟩

end Kuadrant

namespace Kuadrant

def rMixed : Routing :=
  exSimpleRouting [("1.2.3.4", "IPAddress"), ("cat.example.com", "Hostname"),
    ("5.6.7.8", "IPAddress")]

/-- Claim C6: a simple-strategy generation partitions the addresses into
IP-typed and hostname-typed entries and emits (up to the final sort) at most
one A record carrying exactly the IP-typed addresses and at most one CNAME
record carrying exactly the hostname-typed addresses, both at `hostname` with
TTL 60, empty set identifier and no provider-specific properties; an empty
group emits nothing. -/
theorem simple_partition (nn : NamespacedName) (ls : Option (List (String × String)))
    (h : String) (r : Routing) (hh : h ≠ "") (hs : r.strategy = SimpleRoutingStrategy) :
    ∃ eps, GenerateEndpoints nn ls h r = .ok eps ∧
      eps.Perm
        ((if ((r.addresses.getD []).filter (fun p => p.2 == "IPAddress")).map Prod.fst = []
          then []
          else [⟨h, ((r.addresses.getD []).filter (fun p => p.2 == "IPAddress")).map Prod.fst,
                 ARecordType, "", DefaultTTL, []⟩])
         ++ (if ((r.addresses.getD []).filter (fun p => !(p.2 == "IPAddress"))).map Prod.fst = []
          then []
          else [⟨h, ((r.addresses.getD []).filter (fun p => !(p.2 == "IPAddress"))).map Prod.fst,
                 CNAMERecordType, "", DefaultTTL, []⟩])) := by
  refine ⟨_, generate_simple_ok nn ls h r hh hs,
    (perm_sortEndpoints (getSimpleEndpoints (r.addresses.getD []) h)).trans ?_⟩
  rw [getSimple_as_filters]

/-- Claim C6 witness: the partition theorem at a mixed concrete address map. -/
theorem simple_partition_witness :
    ∃ eps, GenerateEndpoints exNN none "test.example.com" rMixed = .ok eps ∧
      eps.Perm
        ((if ((rMixed.addresses.getD []).filter (fun p => p.2 == "IPAddress")).map Prod.fst = []
          then []
          else [⟨"test.example.com",
                 ((rMixed.addresses.getD []).filter (fun p => p.2 == "IPAddress")).map Prod.fst,
                 ARecordType, "", DefaultTTL, []⟩])
         ++ (if ((rMixed.addresses.getD []).filter
                  (fun p => !(p.2 == "IPAddress"))).map Prod.fst = []
          then []
          else [⟨"test.example.com",
                 ((rMixed.addresses.getD []).filter (fun p => !(p.2 == "IPAddress"))).map Prod.fst,
                 CNAMERecordType, "", DefaultTTL, []⟩])) :=
  simple_partition exNN none "test.example.com" rMixed (by decide) rfl

end Kuadrant

namespace Kuadrant

def rLbHostAddr : Routing :=
  ⟨some [("pat.the.cat", "Hostname")], LoadBalancedRoutingStrategy, "IE", 120, [], "cid"⟩

def rLbDefaultGeo : Routing :=
  ⟨some [("pat.the.cat", "Hostname")], LoadBalancedRoutingStrategy, "default", 120, [], "cid"⟩

def exGeoLabels : List (String × String) := [("kuadrant.io/lb-attribute-geo-code", "IE")]

def epsNoGeoLabel : List Endpoint :=
  [⟨"default.klb.test.example.com", ["pat.the.cat"], "CNAME", "pat.the.cat", 60,
     [("weight", "120")]⟩,
   ⟨"klb.test.example.com", ["default.klb.test.example.com"], "CNAME", "default", 300, []⟩,
   ⟨"test.example.com", ["klb.test.example.com"], "CNAME", "", 300, []⟩]

def epsDefaultGeo : List Endpoint :=
  [⟨"default.klb.test.example.com", ["pat.the.cat"], "CNAME", "pat.the.cat", 60,
     [("weight", "120")]⟩,
   ⟨"klb.test.example.com", ["default.klb.test.example.com"], "CNAME", "default", 300, []⟩,
   ⟨"klb.test.example.com", ["default.klb.test.example.com"], "CNAME", "default", 300,
     [("geo-code", "*")]⟩,
   ⟨"test.example.com", ["klb.test.example.com"], "CNAME", "", 300, []⟩]

/-- Claim C2 (amended): absent the geo label the geo code is the sentinel
`"default"` and the CNAME at `lbName` with `setIdentifier = geoCode` carries no
`geo-code` property; a second CNAME at `lbName` with `setIdentifier =
"default"` carrying `geo-code = "*"` is emitted if and only if the routing's
`defaultGeoCode` itself equals the sentinel `"default"` — with any other
`defaultGeoCode` no such record exists.  (As stated the claim is false: the
duplicate is not emitted unconditionally.) -/
theorem lb_missing_geo_label (nn : NamespacedName) (ls : List (String × String))
    (r : Routing) (h : String) (hh : h ≠ "") (hs : r.strategy = LoadBalancedRoutingStrategy)
    (hv : r.Validate = none) (hadd : r.addresses.getD [] ≠ [])
    (hgeo : lookupLabel ls LabelLBAttributeGeoCode = none) :
    getGeoFromLabel ls = DefaultGeo
    ∧ ∃ eps, GenerateEndpoints nn (some ls) h r = .ok eps ∧
      (eps.filter (fun e => e.dnsName == lbNameOf h)).Perm
        ((⟨lbNameOf h, [geoLbNameOf ls h], CNAMERecordType, DefaultGeo, DefaultCnameTTL,
            []⟩ : Endpoint)
          :: (if DefaultGeo = r.defaultGeoCode then
                [⟨lbNameOf h, [geoLbNameOf ls h], CNAMERecordType, "default", DefaultCnameTTL,
                  [(ProviderSpecificGeoCode, WildcardGeo)]⟩]
              else [])) := by
  have hg := getGeo_of_no_label ls hgeo
  refine ⟨hg, _, generate_lb_ok nn ls h r hh hs hv, ?_⟩
  have hp := (perm_sortEndpoints (getLoadBalancedEndpoints nn ls r h)).filter
      (fun e => e.dnsName == lbNameOf h)
  rw [filter_lbName_getLB nn ls r h hadd, hg] at hp
  rw [if_neg (fun hd => hd rfl)] at hp
  exact hp

/-- Claim C2 witness: the amended claim at a concrete routing with a hostname
address, no geo label and `defaultGeoCode = "IE"`. -/
theorem lb_missing_geo_label_witness :
    getGeoFromLabel [] = DefaultGeo
    ∧ ∃ eps, GenerateEndpoints exNN (some []) "test.example.com" rLbHostAddr = .ok eps ∧
      (eps.filter (fun e => e.dnsName == lbNameOf "test.example.com")).Perm
        ((⟨lbNameOf "test.example.com", [geoLbNameOf [] "test.example.com"], CNAMERecordType,
            DefaultGeo, DefaultCnameTTL, []⟩ : Endpoint)
          :: (if DefaultGeo = rLbHostAddr.defaultGeoCode then
                [⟨lbNameOf "test.example.com", [geoLbNameOf [] "test.example.com"],
                  CNAMERecordType, "default", DefaultCnameTTL,
                  [(ProviderSpecificGeoCode, WildcardGeo)]⟩]
              else [])) :=
  lb_missing_geo_label exNN [] rLbHostAddr "test.example.com" (by decide) rfl (by decide)
    (by decide) rfl

/-- Claim C2 counterexample: with the geo label absent and `defaultGeoCode =
"IE"`, exactly one CNAME exists at `lbName` and no generated record at all
carries `geo-code = "*"`, so the claimed unconditional `setIdentifier =
"default"` duplicate does not exist. -/
theorem lb_missing_geo_label_claim_false :
    lookupLabel [] LabelLBAttributeGeoCode = none
    ∧ rLbHostAddr.Validate = none
    ∧ GenerateEndpoints exNN (some []) "test.example.com" rLbHostAddr = .ok epsNoGeoLabel
    ∧ (∀ e ∈ epsNoGeoLabel, providerSpecificValue e ProviderSpecificGeoCode ≠ some WildcardGeo)
    ∧ (epsNoGeoLabel.filter (fun e => e.dnsName == "klb.test.example.com")).length = 1 :=
  ⟨rfl, by decide, by decide, by decide, by decide⟩

/-- Claim C3 (amended): in a load-balanced generation with at least one
address, the records at `lbName` are exactly: one CNAME with `setIdentifier =
geoCode` — carrying `geo-code = geoCode` when `geoCode` is not the sentinel
`"default"`, and no `geo-code` property when it is — plus, exactly when
`geoCode = defaultGeoCode`, a second CNAME with `setIdentifier = "default"`
carrying `geo-code = "*"`.  (As stated the claim is false: the first record
carries no `geo-code` property when `geoCode` is the sentinel, and an empty
address map generates no records at all.) -/
theorem lb_records_at_lbName (nn : NamespacedName) (ls : List (String × String))
    (r : Routing) (h : String) (hh : h ≠ "") (hs : r.strategy = LoadBalancedRoutingStrategy)
    (hv : r.Validate = none) (hadd : r.addresses.getD [] ≠ []) :
    ∃ eps, GenerateEndpoints nn (some ls) h r = .ok eps ∧
      (eps.filter (fun e => e.dnsName == lbNameOf h)).Perm
        ((if getGeoFromLabel ls ≠ DefaultGeo then
            (⟨lbNameOf h, [geoLbNameOf ls h], CNAMERecordType, getGeoFromLabel ls,
              DefaultCnameTTL, [(ProviderSpecificGeoCode, getGeoFromLabel ls)]⟩ : Endpoint)
          else
            ⟨lbNameOf h, [geoLbNameOf ls h], CNAMERecordType, getGeoFromLabel ls,
              DefaultCnameTTL, []⟩)
          :: (if getGeoFromLabel ls = r.defaultGeoCode then
                [⟨lbNameOf h, [geoLbNameOf ls h], CNAMERecordType, "default", DefaultCnameTTL,
                  [(ProviderSpecificGeoCode, WildcardGeo)]⟩]
              else [])) := by
  refine ⟨_, generate_lb_ok nn ls h r hh hs hv, ?_⟩
  have hp := (perm_sortEndpoints (getLoadBalancedEndpoints nn ls r h)).filter
      (fun e => e.dnsName == lbNameOf h)
  rw [filter_lbName_getLB nn ls r h hadd] at hp
  exact hp

/-- Claim C3 witness: the amended claim at a concrete routing whose geo label
equals the default geo code "IE" (the two-record branch). -/
theorem lb_records_at_lbName_witness :
    ∃ eps, GenerateEndpoints exNN (some exGeoLabels) "test.example.com" rLbHostAddr = .ok eps ∧
      (eps.filter (fun e => e.dnsName == lbNameOf "test.example.com")).Perm
        ((if getGeoFromLabel exGeoLabels ≠ DefaultGeo then
            (⟨lbNameOf "test.example.com", [geoLbNameOf exGeoLabels "test.example.com"],
              CNAMERecordType, getGeoFromLabel exGeoLabels, DefaultCnameTTL,
              [(ProviderSpecificGeoCode, getGeoFromLabel exGeoLabels)]⟩ : Endpoint)
          else
            ⟨lbNameOf "test.example.com", [geoLbNameOf exGeoLabels "test.example.com"],
              CNAMERecordType, getGeoFromLabel exGeoLabels, DefaultCnameTTL, []⟩)
          :: (if getGeoFromLabel exGeoLabels = rLbHostAddr.defaultGeoCode then
                [⟨lbNameOf "test.example.com", [geoLbNameOf exGeoLabels "test.example.com"],
                  CNAMERecordType, "default", DefaultCnameTTL,
                  [(ProviderSpecificGeoCode, WildcardGeo)]⟩]
              else [])) :=
  lb_records_at_lbName exNN exGeoLabels rLbHostAddr "test.example.com" (by decide) rfl
    (by decide) (by decide)

/-- Claim C3 counterexample: with no geo label and `defaultGeoCode =
"default"`, `geoCode = defaultGeoCode` holds and two CNAMEs exist at `lbName`,
but neither carries `geo-code = geoCode`: the `setIdentifier = geoCode` record
carries no `geo-code` property at all (the sentinel suppresses it). -/
theorem lb_records_at_lbName_claim_false :
    getGeoFromLabel [] = rLbDefaultGeo.defaultGeoCode
    ∧ rLbDefaultGeo.Validate = none
    ∧ GenerateEndpoints exNN (some []) "test.example.com" rLbDefaultGeo = .ok epsDefaultGeo
    ∧ (epsDefaultGeo.filter (fun e => e.dnsName == "klb.test.example.com")).length = 2
    ∧ (∀ e ∈ epsDefaultGeo,
        providerSpecificValue e ProviderSpecificGeoCode ≠ some (getGeoFromLabel [])) :=
  ⟨rfl, by decide, by decide, by decide, by decide⟩

/-- Claim C4 (amended): for a hostname starting with `"*."` the load-balancer
anchor is `lbName = toLower ("klb." ++ hostname-with-every-"*."-occurrence-
removed)` (the code strips all wildcard occurrences, not only the leading
one), and a non-empty generation ends with the top CNAME that keeps the
original wildcard hostname as its `dnsName` and points at `lbName`. -/
theorem lb_wildcard_strip (nn : NamespacedName) (ls : List (String × String)) (r : Routing)
    (h : String) (hw : ("*." : String).data.isPrefixOf h.data = true)
    (hadd : r.addresses.getD [] ≠ []) :
    lbNameOf h = goToLower ("klb." ++ stripWildcards h)
    ∧ (getLoadBalancedEndpoints nn ls r h).getLast? =
        some (createEndpoint h [lbNameOf h] CNAMERecordType "" DefaultCnameTTL) := by
  have hstar : isWildCardHost h = true := by
    rw [isWildCardHost, List.isPrefixOf_iff_prefix]
    rw [List.isPrefixOf_iff_prefix] at hw
    obtain ⟨t, ht⟩ := hw
    refine ⟨'.' :: t, ?_⟩
    rw [← ht]
    rfl
  constructor
  · rw [lbNameOf, cnameHostOf, if_pos hstar]
  · exact getLB_getLast nn ls r h hadd

/-- Claim C4 witness: the amended claim at the wildcard hostname
`*.example.com`. -/
theorem lb_wildcard_strip_witness :
    lbNameOf "*.example.com" = goToLower ("klb." ++ stripWildcards "*.example.com")
    ∧ (getLoadBalancedEndpoints exNN [] rLbHostAddr "*.example.com").getLast? =
        some (createEndpoint "*.example.com" [lbNameOf "*.example.com"] CNAMERecordType ""
          DefaultCnameTTL) :=
  lb_wildcard_strip exNN [] rLbHostAddr "*.example.com" (by decide) (by decide)

/-- Claim C4 counterexample: for `*.a.*.b` the code removes every `"*."`
occurrence, producing anchor `klb.a.b`, not the claimed `klb.a.*.b`
(hostname with only the leading wildcard label stripped); the dnsNames of the
generation show no `klb.a.*.b` anywhere while the top CNAME keeps `*.a.*.b`. -/
theorem lb_wildcard_strip_claim_false :
    ("*." : String).data.isPrefixOf ("*.a.*.b" : String).data = true
    ∧ lbNameOf "*.a.*.b" = "klb.a.b"
    ∧ lbNameOf "*.a.*.b" ≠ "klb.a.*.b"
    ∧ (getLoadBalancedEndpoints exNN [] rLbHostAddr "*.a.*.b").map (fun e => e.dnsName) =
        ["default.klb.a.b", "klb.a.b", "*.a.*.b"] :=
  ⟨by decide, by decide, by decide, by decide⟩

end Kuadrant

namespace Kuadrant

def rEmptySelector : Routing :=
  ⟨some [("1.1.1.1", "IPAddress")], LoadBalancedRoutingStrategy, "IE", 120,
    [⟨5, ⟨some [], none⟩⟩], "cid"⟩

def cwFoo : CustomWeight := ⟨100, ⟨some [("k", "FOO")], none⟩⟩

def cwBadOp : CustomWeight := ⟨50, ⟨none, some [⟨"k", "BadOp", []⟩]⟩⟩

def rWeights : Routing :=
  ⟨some [("pat.the.cat", "Hostname")], LoadBalancedRoutingStrategy, "IE", 120, [cwFoo], "cid"⟩

def rBadOp : Routing :=
  ⟨some [("pat.the.cat", "Hostname")], LoadBalancedRoutingStrategy, "IE", 120,
    [cwBadOp, cwFoo], "cid"⟩

/-- Claim C8 (amended): `Routing.Validate` for a non-simple strategy performs
its checks in order — missing strategy or nil addresses, then empty cluster ID,
then zero default weight, then empty default geo code, each with the stated
message and each reachable only when the earlier checks pass — and then
accepts exactly those custom weight lists whose entries all have non-zero
weight and a selector with non-nil match labels or non-nil match expressions
(an empty-but-non-nil match-labels map passes, see the counterexample);
`GenerateEndpoints` surfaces any validation error unchanged.  (As stated the
claim is false: a custom weight whose selector has an empty non-nil
match-labels map and no match expressions is accepted.) -/
theorem validate_rejects_invalid_shapes (r : Routing)
    (hs : r.strategy ≠ SimpleRoutingStrategy) :
    ((r.strategy = "" ∨ r.addresses = none) → r.Validate = some "must provide addresses")
    ∧ (r.strategy ≠ "" → r.addresses ≠ none → r.clusterID = "" →
        r.Validate = some "cluster ID is required")
    ∧ (r.strategy ≠ "" → r.addresses ≠ none → r.clusterID ≠ "" → r.defaultWeight = 0 →
        r.Validate = some "default weight is required")
    ∧ (r.strategy ≠ "" → r.addresses ≠ none → r.clusterID ≠ "" → r.defaultWeight ≠ 0 →
        r.defaultGeoCode = "" → r.Validate = some "default geocode is required")
    ∧ (r.strategy ≠ "" → r.addresses ≠ none → r.clusterID ≠ "" → r.defaultWeight ≠ 0 →
        r.defaultGeoCode ≠ "" →
        ((r.Validate = none ↔ ∀ cw ∈ r.customWeights, cw.weight ≠ 0 ∧
            ¬(cw.selector.matchLabels = none ∧ cw.selector.matchExpressions = none))
         ∧ (r.Validate = none ∨ r.Validate = some "custom weight cannot be zero"
            ∨ r.Validate = some "custom weight must define non-empty selector")))
    ∧ (∀ nn : NamespacedName, ∀ ls : Option (List (String × String)), ∀ h e : String,
        h ≠ "" → r.Validate = some e → GenerateEndpoints nn ls h r = .error e) := by
  obtain ⟨c1, c2, c3, c4, c5⟩ := validate_lb_checks r hs
  refine ⟨c1, c2, c3, c4, fun h1 h2 h3 h4 h5 => ?_,
    fun nn ls h e hh hv => generate_error_of_validate nn ls h r e hh hv⟩
  rw [c5 h1 h2 h3 h4 h5]
  exact ⟨validateCW_none_iff r.customWeights, validateCW_cases r.customWeights⟩

/-- Claim C8 witness: the first check at a concrete load-balanced routing with
nil addresses. -/
theorem validate_rejects_invalid_shapes_witness :
    rNilAddresses.Validate = some "must provide addresses" :=
  (validate_rejects_invalid_shapes rNilAddresses (by decide)).1 (Or.inr rfl)

/-- Claim C8 counterexample: a custom weight whose selector is empty in the
claim's sense — no match labels (an empty map) and no match expressions —
passes validation, because the Go emptiness test requires `MatchLabels` to be
nil, not merely empty. -/
theorem validate_rejects_invalid_shapes_claim_false :
    rEmptySelector.customWeights = [⟨5, ⟨some [], none⟩⟩]
    ∧ (⟨some [], none⟩ : LabelSelector).matchLabels.getD [] = []
    ∧ (⟨some [], none⟩ : LabelSelector).matchExpressions.getD [] = []
    ∧ rEmptySelector.Validate = none :=
  ⟨rfl, rfl, rfl, by decide⟩

/-- Claim C9 (amended): when every custom weight's selector converts without
error — valid operators with the values arity `labels.NewRequirement`
enforces, label-syntax validation outside the model — the generator's weight
equals the spec's rule: the weight of the first custom weight (in declaration
order) whose selector matches the object labels, else the default weight; and
every geo-tier CNAME (TTL-60 CNAME) of a load-balanced generation carries
exactly that weight as its `weight` property.  (As stated the claim is false:
a selector that fails conversion aborts the scan and yields the default
weight even when a later custom weight matches.) -/
theorem weight_resolution_first_valid_match (r : Routing) (ls : List (String × String))
    (hvalid : ∀ cw ∈ r.customWeights, selectorValidOps cw.selector = true) :
    r.getWeight ls = specFirstMatchWeight r ls
    ∧ (∀ nn : NamespacedName, ∀ h : String, ∀ e : Endpoint,
        e ∈ getLoadBalancedEndpoints nn ls r h → e.recordType = CNAMERecordType →
        e.recordTTL = DefaultTTL →
        providerSpecificValue e ProviderSpecificWeight =
          some (toString (specFirstMatchWeight r ls))) := by
  have h1 : r.getWeight ls = specFirstMatchWeight r ls := by
    rw [Routing.getWeight, specFirstMatchWeight]
    exact getWeightLoop_eq_spec r.defaultWeight ls r.customWeights hvalid
  refine ⟨h1, fun nn h e he hct httl => ?_⟩
  rw [← h1]
  exact weight_on_geo_cnames nn ls r h e he hct httl

/-- Claim C9 witness: with default weight 120 and one custom weight 100
selecting `k=FOO`, a labeled object resolves to 100 and an unlabeled one
to 120. -/
theorem weight_resolution_first_valid_match_witness :
    rWeights.getWeight [("k", "FOO")] = 100 ∧ rWeights.getWeight [] = 120 :=
  ⟨(weight_resolution_first_valid_match rWeights [("k", "FOO")] (by decide)).1.trans (by decide),
   (weight_resolution_first_valid_match rWeights [] (by decide)).1.trans (by decide)⟩

/-- Claim C9 counterexample: with a first custom weight whose selector has an
invalid operator and a second one (weight 100) matching the labels, the first
matching custom weight has weight 100 but the code returns the default 120
(the selector-conversion error aborts the scan), and the generated geo-tier
CNAME carries weight "120". -/
theorem weight_resolution_claim_false :
    rBadOp.Validate = none
    ∧ selectorMatches [("k", "FOO")] cwBadOp.selector = false
    ∧ selectorMatches [("k", "FOO")] cwFoo.selector = true
    ∧ cwFoo.weight = 100
    ∧ rBadOp.getWeight [("k", "FOO")] = 120
    ∧ (getLoadBalancedEndpoints exNN [("k", "FOO")] rBadOp "test.example.com").map
        (fun e => providerSpecificValue e ProviderSpecificWeight) =
        [some "120", none, none] :=
  ⟨by decide, by decide, by decide, rfl, by decide, by decide⟩

end Kuadrant
